import Mathlib

/-!
Shallow embedding of the CuraCloud health-record server
(`server/storage.ts`, `server/routes.ts`, `shared/schema.ts`).

The MongoDB collections are modelled as Lean lists of documents; `insertOne`
appends, `deleteOne` removes the first matching document, `findOne` returns
the first match, `updateOne` rewrites the first match.  ObjectIds and the
`Date` stamps are modelled by a single monotone counter `nextId` on the store.
Request bodies are modelled as structures of optional fields and the zod
insert schemas as parse functions returning `Option`.
-/

namespace ETT

/-! ### Data model (shared/schema.ts) -/

/-- A document of the `users` collection (`userSchema`). -/
structure UserDoc where
  oid : String
  name : String
  email : String
  password : String
  role : String
  verified : Bool
  specialty : Option String
  deriving Repr, DecidableEq

/-- `InsertUser = userSchema.omit(_id, createdAt)`. -/
structure InsertUser where
  name : String
  email : String
  password : String
  role : String
  verified : Bool
  specialty : Option String
  deriving Repr, DecidableEq

/-- A document of the `records` collection (`recordSchema`). -/
structure RecordDoc where
  oid : String
  patientId : String
  filename : String
  filePath : String
  description : String
  fileType : String
  fileSize : Int
  uploadDate : Nat
  deriving Repr, DecidableEq

/-- `InsertRecord = recordSchema.omit(_id, uploadDate)`. -/
structure InsertRecord where
  patientId : String
  filename : String
  filePath : String
  description : String
  fileType : String
  fileSize : Int
  deriving Repr, DecidableEq

/-- A document of the `access` collection (`accessSchema`). -/
structure AccessDoc where
  oid : String
  patientId : String
  doctorId : String
  granted : Bool
  grantedAt : Nat
  deriving Repr, DecidableEq

/-- `InsertAccess = accessSchema.omit(_id, grantedAt)`. -/
structure InsertAccess where
  patientId : String
  doctorId : String
  granted : Bool
  deriving Repr, DecidableEq

/-- A document of the `notes` collection (`noteSchema`). -/
structure NoteDoc where
  oid : String
  doctorId : String
  patientId : String
  consultationType : String
  content : String
  diagnosis : Option String
  nextAppointment : Option String
  createdAt : Nat
  deriving Repr, DecidableEq

/-- `InsertNote = noteSchema.omit(_id, createdAt)`. -/
structure InsertNote where
  doctorId : String
  patientId : String
  consultationType : String
  content : String
  diagnosis : Option String
  nextAppointment : Option String
  deriving Repr, DecidableEq

/-- The denormalized user snapshot kept in `req.session.user`. -/
structure SessionUser where
  oid : String
  email : String
  role : String
  name : String
  verified : Bool
  deriving Repr, DecidableEq

/-! ### MongoDB collection primitives -/

/-- `deleteOne`: remove the first document matching the filter. -/
def deleteOne (p : α → Bool) : List α → List α
  | [] => []
  | x :: xs => if p x then xs else x :: deleteOne p xs

/-- `updateOne`: rewrite the first document matching the filter. -/
def updateOne (p : α → Bool) (f : α → α) : List α → List α
  | [] => []
  | x :: xs => if p x then f x :: xs else x :: updateOne p f xs

/-! ### The store (server/storage.ts, class MongoStorage) -/

/-- The database state: one list per collection plus the id/date counter. -/
structure Store where
  users : List UserDoc
  records : List RecordDoc
  access : List AccessDoc
  notes : List NoteDoc
  nextId : Nat
  deriving Repr, DecidableEq

def emptyStore : Store := ⟨[], [], [], [], 0⟩

/-- `getUserByEmail`: `findOne({ email })`. -/
def getUserByEmail (s : Store) (email : String) : Option UserDoc :=
  s.users.find? (fun u => u.email == email)

/-- `createUser`: `insertOne({...user, createdAt: new Date()})`. -/
def createUser (s : Store) (u : InsertUser) : Store × UserDoc :=
  let doc : UserDoc :=
    { oid := toString s.nextId, name := u.name, email := u.email,
      password := u.password, role := u.role, verified := u.verified,
      specialty := u.specialty }
  ({ s with users := s.users ++ [doc], nextId := s.nextId + 1 }, doc)

/-- `updateUserVerification`: `updateOne({_id}, {$set: {verified}})`. -/
def updateUserVerification (s : Store) (id : String) (verified : Bool) : Store :=
  let users := updateOne (fun u => u.oid == id)
    (fun u => { u with verified := verified }) s.users
  { s with users := users }

/-- `createRecord`: `insertOne({...record, uploadDate: new Date()})`. -/
def createRecord (s : Store) (r : InsertRecord) : Store × RecordDoc :=
  let doc : RecordDoc :=
    { oid := toString s.nextId, patientId := r.patientId, filename := r.filename,
      filePath := r.filePath, description := r.description, fileType := r.fileType,
      fileSize := r.fileSize, uploadDate := s.nextId }
  ({ s with records := s.records ++ [doc], nextId := s.nextId + 1 }, doc)

/-- Insertion step of the `uploadDate` descending sort. -/
def insertByDate (r : RecordDoc) : List RecordDoc → List RecordDoc
  | [] => [r]
  | x :: xs => if r.uploadDate ≤ x.uploadDate then x :: insertByDate r xs else r :: x :: xs

/-- `sort({ uploadDate: -1 })`, newest first. -/
def sortByDateDesc (l : List RecordDoc) : List RecordDoc := l.foldr insertByDate []

/-- `getRecordsByPatient`: `find({patientId}).sort({uploadDate: -1})`. -/
def getRecordsByPatient (s : Store) (patientId : String) : List RecordDoc :=
  sortByDateDesc (s.records.filter (fun r => r.patientId == patientId))

/-- The `deleteOne`/`revokeAccess` filter `{ patientId, doctorId }`. -/
def accessPairMatch (patientId doctorId : String) (a : AccessDoc) : Bool :=
  a.patientId == patientId && a.doctorId == doctorId

/-- `grantAccess`: `deleteOne({patientId, doctorId})` then
`insertOne({...access, grantedAt: new Date()})`. -/
def grantAccess (s : Store) (a : InsertAccess) : Store × AccessDoc :=
  let afterDelete := deleteOne (accessPairMatch a.patientId a.doctorId) s.access
  let doc : AccessDoc :=
    { oid := toString s.nextId, patientId := a.patientId, doctorId := a.doctorId,
      granted := a.granted, grantedAt := s.nextId }
  ({ s with access := afterDelete ++ [doc], nextId := s.nextId + 1 }, doc)

/-- `revokeAccess`: `deleteOne({ patientId, doctorId })`. -/
def revokeAccess (s : Store) (patientId doctorId : String) : Store :=
  { s with access := deleteOne (accessPairMatch patientId doctorId) s.access }

/-- `checkAccess`: `!!findOne({ patientId, doctorId, granted: true })`. -/
def checkAccess (s : Store) (patientId doctorId : String) : Bool :=
  (s.access.find? (fun a =>
    a.patientId == patientId && a.doctorId == doctorId && a.granted)).isSome

/-- `createNote`: `insertOne({...note, createdAt: new Date()})`. -/
def createNote (s : Store) (n : InsertNote) : Store × NoteDoc :=
  let doc : NoteDoc :=
    { oid := toString s.nextId, doctorId := n.doctorId, patientId := n.patientId,
      consultationType := n.consultationType, content := n.content,
      diagnosis := n.diagnosis, nextAppointment := n.nextAppointment,
      createdAt := s.nextId }
  ({ s with notes := s.notes ++ [doc], nextId := s.nextId + 1 }, doc)

/-! ### zod insert schemas as parse functions -/

/-- Approximation of zod's `z.string().email()` check. -/
def isEmailLike (s : String) : Bool := s.data.contains '@'

/-- `z.enum(['patient', 'doctor', 'admin'])`. -/
def roleValues : List String := ["patient", "doctor", "admin"]

/-- A JSON body submitted to `POST /api/register`, before validation. -/
structure RegisterBody where
  name : Option String
  email : Option String
  password : Option String
  role : Option String
  verified : Option Bool
  specialty : Option String
  deriving Repr, DecidableEq

/-- `insertUserSchema.parse`: name min 1, valid email, password min 6,
role in the enum, `verified` defaulting to false. -/
def parseInsertUser (b : RegisterBody) : Option InsertUser :=
  match b.name, b.email, b.password, b.role with
  | some n, some e, some pw, some r =>
    if n.length ≥ 1 && isEmailLike e && pw.length ≥ 6 && roleValues.contains r then
      some { name := n, email := e, password := pw, role := r,
             verified := b.verified.getD false, specialty := b.specialty }
    else none
  | _, _, _, _ => none

/-- A JSON body submitted to `POST /api/records`, before validation. -/
structure RecordBody where
  patientId : Option String
  filename : Option String
  filePath : Option String
  description : Option String
  fileType : Option String
  fileSize : Option Int
  deriving Repr, DecidableEq

/-- `insertRecordSchema.parse({...req.body, patientId})`: the handler
overrides `patientId` with the session user's id before parsing, so the
body's own `patientId` is never used; all other fields are required. -/
def parseInsertRecord (patientId : String) (b : RecordBody) : Option InsertRecord :=
  match b.filename, b.filePath, b.description, b.fileType, b.fileSize with
  | some fn, some fp, some d, some ft, some fs =>
    some { patientId := patientId, filename := fn, filePath := fp,
           description := d, fileType := ft, fileSize := fs }
  | _, _, _, _, _ => none

/-- A JSON body submitted to `POST /api/notes`, before validation. -/
structure NoteBody where
  doctorId : Option String
  patientId : Option String
  consultationType : Option String
  content : Option String
  diagnosis : Option String
  nextAppointment : Option String
  deriving Repr, DecidableEq

/-- `insertNoteSchema.parse({...req.body, doctorId})`: the handler overrides
`doctorId` with the session user's id; `patientId`, `consultationType` and
`content` are required, the rest optional. -/
def parseInsertNote (doctorId : String) (b : NoteBody) : Option InsertNote :=
  match b.patientId, b.consultationType, b.content with
  | some p, some ct, some c =>
    some { doctorId := doctorId, patientId := p, consultationType := ct,
           content := c, diagnosis := b.diagnosis,
           nextAppointment := b.nextAppointment }
  | _, _, _ => none

/-- `insertAccessSchema.parse({patientId, doctorId, granted})`: the grant
handler parses a server-constructed object whose fields already have the
schema's types, so this parse always succeeds. -/
def parseInsertAccess (patientId doctorId : String) (granted : Bool) :
    Option InsertAccess :=
  some { patientId := patientId, doctorId := doctorId, granted := granted }

/-! ### Route handlers (server/routes.ts)

Each handler is modelled together with its middleware chain: `requireAuth`
answers 401 when there is no session user, `requireRole(roles)` answers 403
when the session user's role is not in the set.  A handler returns the new
store and the HTTP status it responds with. -/

/-- `POST /api/register`: validate, reject duplicate email with 400, force
`verified = (role === 'admin')`, insert, answer 201.  A zod failure is caught
and answered with 400. -/
def registerRoute (s : Store) (b : RegisterBody) : Store × Nat :=
  match parseInsertUser b with
  | none => (s, 400)
  | some iu =>
    match getUserByEmail s iu.email with
    | some _ => (s, 400)
    | none =>
      let iu := { iu with verified := iu.role == "admin" }
      ((createUser s iu).1, 201)

/-- `POST /api/login`: `findOne` by email, compare plaintext password and
role, reject unverified accounts; on success store the snapshot in the
session.  Returns the session after the request and the status. -/
def loginRoute (s : Store) (sess : Option SessionUser)
    (email password role : String) : Option SessionUser × Nat :=
  match getUserByEmail s email with
  | none => (sess, 401)
  | some u =>
    if u.password != password || u.role != role then (sess, 401)
    else if !u.verified then (sess, 401)
    else (some { oid := u.oid, email := u.email, role := u.role,
                 name := u.name, verified := u.verified }, 200)

/-- `POST /api/records` (requireAuth, requireRole(['patient'])): parse the
body with `patientId` overridden by the session id, insert.  A zod failure
lands in the broad catch, which answers 500. -/
def recordsRoute (s : Store) (sess : Option SessionUser) (b : RecordBody) :
    Store × Nat :=
  match sess with
  | none => (s, 401)
  | some u =>
    if u.role != "patient" then (s, 403)
    else
      match parseInsertRecord u.oid b with
      | none => (s, 500)
      | some r => ((createRecord s r).1, 200)

/-- Outcome of a `POST /api/upload` request: the first three are produced by
middleware before the route handler body runs. -/
inductive UploadResult where
  | unauthenticated
  | forbidden
  | multerRejected
  | handled (status : Nat)
  deriving Repr, DecidableEq

/-- True exactly when the route handler body ran. -/
def UploadResult.handlerRan : UploadResult → Bool
  | .handled _ => true
  | _ => false

/-- The multer `fileFilter` allowlist. -/
def allowedTypes : List String :=
  ["application/pdf", "image/jpeg", "image/png", "image/jpg"]

/-- An incoming multipart file as multer presents it. -/
structure UploadedFile where
  originalname : String
  mimetype : String
  size : Nat
  path : String
  deriving Repr, DecidableEq

/-- The multer middleware accepts a file iff its MIME type is in the
allowlist (`fileFilter`) and its size is within the 10MB `limits.fileSize`
cap; otherwise it errors out before the route handler runs. -/
def multerAccepts (f : UploadedFile) : Bool :=
  allowedTypes.contains f.mimetype && f.size ≤ 10 * 1024 * 1024

/-- `POST /api/upload` (requireAuth, requireRole(['patient']),
`upload.single('file')`): a file rejected by multer never reaches the
handler; the handler answers 400 without a file, otherwise parses the
record built from the file metadata and inserts it. -/
def uploadRoute (s : Store) (sess : Option SessionUser)
    (file : Option UploadedFile) (description : Option String) :
    Store × UploadResult :=
  match sess with
  | none => (s, .unauthenticated)
  | some u =>
    if u.role != "patient" then (s, .forbidden)
    else
      match file with
      | none => (s, .handled 400)
      | some f =>
        if !multerAccepts f then (s, .multerRejected)
        else
          let r : InsertRecord :=
            { patientId := u.oid, filename := f.originalname, filePath := f.path,
              description := description.getD "", fileType := f.mimetype,
              fileSize := (f.size : Int) }
          ((createRecord s r).1, .handled 200)

/-- `POST /api/grant-access` (requireAuth, requireRole(['patient'])): look
the doctor up by email; 400 unless a verified doctor is found; then
`grantAccess` with the session patient id and `granted: true`. -/
def grantAccessRoute (s : Store) (sess : Option SessionUser)
    (doctorEmail : Option String) : Store × Nat :=
  match sess with
  | none => (s, 401)
  | some u =>
    if u.role != "patient" then (s, 403)
    else
      match doctorEmail.bind (getUserByEmail s) with
      | none => (s, 400)
      | some doctor =>
        if doctor.role != "doctor" || !doctor.verified then (s, 400)
        else
          match parseInsertAccess u.oid doctor.oid true with
          | none => (s, 500)
          | some a => ((grantAccess s a).1, 200)

/-- `POST /api/revoke-access` (requireAuth, requireRole(['patient'])):
`revokeAccess(session id, body doctorId)` then 200.  A missing `doctorId`
makes the delete filter match nothing.  Returns store, status, message. -/
def revokeAccessRoute (s : Store) (sess : Option SessionUser)
    (doctorId : Option String) : Store × Nat × String :=
  match sess with
  | none => (s, 401, "Authentication required")
  | some u =>
    if u.role != "patient" then (s, 403, "Insufficient permissions")
    else
      match doctorId with
      | none => (s, 200, "Access revoked successfully")
      | some d => (revokeAccess s u.oid d, 200, "Access revoked successfully")

/-- `GET /api/records/:patientId` (requireAuth, requireRole(['doctor'])):
403 without an active grant, otherwise the patient's records.  Returns the
status and the records payload (`none` when no records are returned). -/
def patientRecordsRoute (s : Store) (sess : Option SessionUser)
    (patientId : String) : Nat × Option (List RecordDoc) :=
  match sess with
  | none => (401, none)
  | some u =>
    if u.role != "doctor" then (403, none)
    else if !checkAccess s patientId u.oid then (403, none)
    else (200, some (getRecordsByPatient s patientId))

/-- `POST /api/notes` (requireAuth, requireRole(['doctor'])): parse with
`doctorId` overridden by the session id (a zod failure is caught as 500),
then 403 without an active grant, otherwise insert the note. -/
def notesRoute (s : Store) (sess : Option SessionUser) (b : NoteBody) :
    Store × Nat :=
  match sess with
  | none => (s, 401)
  | some u =>
    if u.role != "doctor" then (s, 403)
    else
      match parseInsertNote u.oid b with
      | none => (s, 500)
      | some nd =>
        if !checkAccess s nd.patientId u.oid then (s, 403)
        else ((createNote s nd).1, 200)

/-- `POST /api/verify-user` (requireAuth, requireRole(['admin'])):
`updateUserVerification(userId, verified)` then 200. -/
def verifyUserRoute (s : Store) (sess : Option SessionUser)
    (userId : String) (verified : Bool) : Store × Nat :=
  match sess with
  | none => (s, 401)
  | some u =>
    if u.role != "admin" then (s, 403)
    else (updateUserVerification s userId verified, 200)

/-! ### Reachable stores

A store is reachable when it arises from the empty database by any sequence
of the store-mutating endpoints (login, logout and the GET endpoints do not
write to the store). -/

inductive Reachable : Store → Prop where
  | init : Reachable emptyStore
  | register (s b) : Reachable s → Reachable (registerRoute s b).1
  | records (s sess b) : Reachable s → Reachable (recordsRoute s sess b).1
  | upload (s sess f d) : Reachable s → Reachable (uploadRoute s sess f d).1
  | grant (s sess e) : Reachable s → Reachable (grantAccessRoute s sess e).1
  | revoke (s sess d) : Reachable s → Reachable (revokeAccessRoute s sess d).1
  | note (s sess b) : Reachable s → Reachable (notesRoute s sess b).1
  | verify (s sess uid v) : Reachable s → Reachable (verifyUserRoute s sess uid v).1

/-- Number of access documents for one (patientId, doctorId) pair. -/
def countPair (l : List AccessDoc) (patientId doctorId : String) : Nat :=
  l.countP (accessPairMatch patientId doctorId)

/-- The at-most-one-grant-per-pair invariant. -/
def AccessInv (s : Store) : Prop :=
  ∀ p d, countPair s.access p d ≤ 1

/-! ### Lemmas about `deleteOne` -/

theorem countP_deleteOne_le (p q : α → Bool) (l : List α) :
    (deleteOne p l).countP q ≤ l.countP q := by
  induction l with
  | nil => simp [deleteOne]
  | cons x xs ih =>
    by_cases hx : p x
    · simp only [deleteOne, if_pos hx, List.countP_cons]
      split <;> omega
    · simp only [deleteOne, if_neg hx, List.countP_cons]
      omega

theorem countP_deleteOne_self (p : α → Bool) (l : List α)
    (h : l.countP p ≤ 1) : (deleteOne p l).countP p = 0 := by
  induction l with
  | nil => simp [deleteOne]
  | cons x xs ih =>
    by_cases hx : p x
    · simp only [deleteOne, if_pos hx]
      simp only [List.countP_cons, if_pos hx] at h
      omega
    · simp only [deleteOne, if_neg hx, List.countP_cons, if_neg hx]
      simp only [List.countP_cons, if_neg hx] at h
      simpa [hx] using ih h

theorem deleteOne_of_countP_zero (p : α → Bool) (l : List α)
    (h : l.countP p = 0) : deleteOne p l = l := by
  induction l with
  | nil => rfl
  | cons x xs ih =>
    simp only [List.countP_cons] at h
    have hx : p x = false := by
      by_cases hpx : p x
      · simp [hpx] at h
      · simpa using hpx
    have : xs.countP p = 0 := by omega
    simp [deleteOne, hx, ih this]

theorem find?_none_of_countP_zero {p q : α → Bool} (l : List α)
    (hpq : ∀ a, q a = true → p a = true) (h : l.countP p = 0) :
    l.find? q = none := by
  rw [List.find?_eq_none]
  intro a ha hqa
  have := (List.countP_eq_zero.mp h) a ha
  exact this (hpq a hqa)

/-! ### The access invariant is preserved by every endpoint -/

theorem accessInv_of_access_eq {s s' : Store} (h : s'.access = s.access)
    (hi : AccessInv s) : AccessInv s' := fun p d => h ▸ hi p d

theorem accessInv_grantAccess (s : Store) (a : InsertAccess)
    (h : AccessInv s) : AccessInv (grantAccess s a).1 := by
  intro p d
  have hacc : (grantAccess s a).1.access =
      deleteOne (accessPairMatch a.patientId a.doctorId) s.access ++
        [{ oid := toString s.nextId, patientId := a.patientId,
           doctorId := a.doctorId, granted := a.granted,
           grantedAt := s.nextId }] := rfl
  rw [countPair, hacc, List.countP_append]
  by_cases hm : a.patientId = p ∧ a.doctorId = d
  · obtain ⟨hp, hd⟩ := hm
    subst hp; subst hd
    have h0 : (deleteOne (accessPairMatch a.patientId a.doctorId) s.access).countP
        (accessPairMatch a.patientId a.doctorId) = 0 :=
      countP_deleteOne_self _ _ (h a.patientId a.doctorId)
    simp [h0, accessPairMatch, List.countP_cons]
  · have hdoc : accessPairMatch p d
        { oid := toString s.nextId, patientId := a.patientId,
          doctorId := a.doctorId, granted := a.granted,
          grantedAt := s.nextId } = false := by
      simp only [accessPairMatch]
      by_cases hp : a.patientId = p
      · have hd : a.doctorId ≠ d := fun hd => hm ⟨hp, hd⟩
        simp [hp, hd]
      · simp [hp]
    have hle : (deleteOne (accessPairMatch a.patientId a.doctorId) s.access).countP
        (accessPairMatch p d) ≤ s.access.countP (accessPairMatch p d) :=
      countP_deleteOne_le _ _ _
    have := h p d
    rw [countPair] at this
    simp only [List.countP_cons, List.countP_nil, hdoc, Bool.false_eq_true,
      if_false]
    omega

theorem accessInv_revokeAccess (s : Store) (p0 d0 : String)
    (h : AccessInv s) : AccessInv (revokeAccess s p0 d0) := by
  intro p d
  exact le_trans (countP_deleteOne_le _ _ _) (h p d)

theorem accessInv_registerRoute (s : Store) (b : RegisterBody)
    (h : AccessInv s) : AccessInv (registerRoute s b).1 := by
  unfold registerRoute
  split
  · exact h
  · split
    · exact h
    · exact accessInv_of_access_eq rfl h

theorem accessInv_recordsRoute (s : Store) (sess : Option SessionUser)
    (b : RecordBody) (h : AccessInv s) : AccessInv (recordsRoute s sess b).1 := by
  unfold recordsRoute
  split
  · exact h
  · split
    · exact h
    · split
      · exact h
      · exact accessInv_of_access_eq rfl h

theorem accessInv_uploadRoute (s : Store) (sess : Option SessionUser)
    (f : Option UploadedFile) (d : Option String) (h : AccessInv s) :
    AccessInv (uploadRoute s sess f d).1 := by
  unfold uploadRoute
  split
  · exact h
  · split
    · exact h
    · split
      · exact h
      · split
        · exact h
        · exact accessInv_of_access_eq rfl h

theorem accessInv_grantAccessRoute (s : Store) (sess : Option SessionUser)
    (e : Option String) (h : AccessInv s) :
    AccessInv (grantAccessRoute s sess e).1 := by
  unfold grantAccessRoute
  split
  · exact h
  · split
    · exact h
    · split
      · exact h
      · split
        · exact h
        · split
          · exact h
          · exact accessInv_grantAccess _ _ h

theorem accessInv_revokeAccessRoute (s : Store) (sess : Option SessionUser)
    (d : Option String) (h : AccessInv s) :
    AccessInv (revokeAccessRoute s sess d).1 := by
  unfold revokeAccessRoute
  split
  · exact h
  · split
    · exact h
    · split
      · exact h
      · exact accessInv_revokeAccess _ _ _ h

theorem accessInv_notesRoute (s : Store) (sess : Option SessionUser)
    (b : NoteBody) (h : AccessInv s) : AccessInv (notesRoute s sess b).1 := by
  unfold notesRoute
  split
  · exact h
  · split
    · exact h
    · split
      · exact h
      · split
        · exact h
        · exact accessInv_of_access_eq rfl h

theorem accessInv_verifyUserRoute (s : Store) (sess : Option SessionUser)
    (uid : String) (v : Bool) (h : AccessInv s) :
    AccessInv (verifyUserRoute s sess uid v).1 := by
  unfold verifyUserRoute
  split
  · exact h
  · split
    · exact h
    · exact accessInv_of_access_eq rfl h

theorem reachable_accessInv (s : Store) (h : Reachable s) : AccessInv s := by
  induction h with
  | init => intro p d; simp [emptyStore, countPair]
  | register s b _ ih => exact accessInv_registerRoute s b ih
  | records s sess b _ ih => exact accessInv_recordsRoute s sess b ih
  | upload s sess f d _ ih => exact accessInv_uploadRoute s sess f d ih
  | grant s sess e _ ih => exact accessInv_grantAccessRoute s sess e ih
  | revoke s sess d _ ih => exact accessInv_revokeAccessRoute s sess d ih
  | note s sess b _ ih => exact accessInv_notesRoute s sess b ih
  | verify s sess uid v _ ih => exact accessInv_verifyUserRoute s sess uid v ih

theorem countPair_grantAccess (s : Store) (a : InsertAccess)
    (h : countPair s.access a.patientId a.doctorId ≤ 1) :
    countPair (grantAccess s a).1.access a.patientId a.doctorId = 1 := by
  have hacc : (grantAccess s a).1.access =
      deleteOne (accessPairMatch a.patientId a.doctorId) s.access ++
        [{ oid := toString s.nextId, patientId := a.patientId,
           doctorId := a.doctorId, granted := a.granted,
           grantedAt := s.nextId }] := rfl
  rw [countPair, hacc, List.countP_append]
  have h0 := countP_deleteOne_self (accessPairMatch a.patientId a.doctorId) s.access h
  simp [h0, accessPairMatch, List.countP_cons]

theorem accessInv_empty : AccessInv emptyStore := by
  intro p d
  simp [countPair, emptyStore]

/-! ### Concrete fixtures used by witnesses and counterexamples -/

def patientSess : SessionUser :=
  { oid := "p1", email := "alice@x.com", role := "patient",
    name := "Alice", verified := true }

def doctorSess : SessionUser :=
  { oid := "d1", email := "dr@x.com", role := "doctor",
    name := "Dr", verified := true }

def sampleGrant : InsertAccess :=
  { patientId := "p1", doctorId := "d1", granted := true }

def emptyRegisterBody : RegisterBody := ⟨none, none, none, none, none, none⟩

def emptyRecordBody : RecordBody := ⟨none, none, none, none, none, none⟩

def emptyNoteBody : NoteBody := ⟨none, none, none, none, none, none⟩

def validNoteBody : NoteBody :=
  ⟨none, some "p1", some "checkup", some "all good", none, none⟩

def patientRegisterBody : RegisterBody :=
  ⟨some "Bob", some "bob@x.com", some "secret1", some "patient", some true, none⟩

def unverifiedUser : UserDoc :=
  { oid := "u1", name := "Ann", email := "ann@x.com", password := "secret1",
    role := "patient", verified := false, specialty := none }

def unverifiedDoctor : UserDoc :=
  { oid := "d2", name := "Eve", email := "eve@x.com", password := "secret1",
    role := "doctor", verified := false, specialty := none }

def storeUnverified : Store := { emptyStore with users := [unverifiedUser] }

def storeUnverifiedDoctor : Store :=
  { emptyStore with users := [unverifiedDoctor] }

def storeWithGrant : Store := (grantAccess emptyStore sampleGrant).1

def badFile : UploadedFile :=
  ⟨"tool.exe", "application/x-msdownload", 10, "uploads/tool.exe"⟩

/-! ### The claims -/

/-- C1: every store reachable from the empty database has at most one
Access document per (patientId, doctorId) pair, and granting access twice
in succession for the same pair leaves exactly one Access row for it. -/
theorem grant_unique_per_pair (s : Store) (h : Reachable s) :
    AccessInv s ∧
    ∀ a : InsertAccess,
      countPair (grantAccess (grantAccess s a).1 a).1.access
        a.patientId a.doctorId = 1 := by
  have hinv := reachable_accessInv s h
  refine ⟨hinv, fun a => ?_⟩
  have h1 := accessInv_grantAccess s a hinv
  exact countPair_grantAccess _ a (h1 a.patientId a.doctorId)

/-- Witness for C1 at the empty store and a concrete grant. -/
theorem grant_unique_per_pair_witness :
    countPair
      (grantAccess (grantAccess emptyStore sampleGrant).1 sampleGrant).1.access
      sampleGrant.patientId sampleGrant.doctorId = 1 :=
  (grant_unique_per_pair emptyStore Reachable.init).2 sampleGrant

/-- C10: when no Access document matches the pair, revokeAccess leaves the
store unchanged, revoking twice equals revoking once, and the route still
answers 200 with the success message. -/
theorem revoke_idempotent_no_match (s : Store) (u : SessionUser) (d : String)
    (hrole : u.role = "patient")
    (hnone : countPair s.access u.oid d = 0) :
    revokeAccess s u.oid d = s ∧
    revokeAccess (revokeAccess s u.oid d) u.oid d = revokeAccess s u.oid d ∧
    revokeAccessRoute s (some u) (some d) =
      (s, 200, "Access revoked successfully") := by
  have hid : revokeAccess s u.oid d = s := by
    unfold revokeAccess
    rw [deleteOne_of_countP_zero _ _ hnone]
  refine ⟨hid, by simp only [hid], ?_⟩
  simp [revokeAccessRoute, hrole, hid]

/-- Witness for C10: revoking a never-granted pair at the empty store. -/
theorem revoke_idempotent_no_match_witness :
    revokeAccess emptyStore patientSess.oid "d1" = emptyStore ∧
    revokeAccess (revokeAccess emptyStore patientSess.oid "d1")
      patientSess.oid "d1" = revokeAccess emptyStore patientSess.oid "d1" ∧
    revokeAccessRoute emptyStore (some patientSess) (some "d1") =
      (emptyStore, 200, "Access revoked successfully") :=
  revoke_idempotent_no_match emptyStore patientSess "d1" rfl rfl

/-- C4: in a store satisfying the at-most-one-grant invariant, revoking a
pair makes checkAccess false, so the doctor's next
GET /api/records/:patientId for that patient answers 403 with no records. -/
theorem revoke_removes_visibility (s : Store) (p d : String)
    (hinv : AccessInv s) :
    checkAccess (revokeAccess s p d) p d = false ∧
    ∀ u : SessionUser, u.role = "doctor" → u.oid = d →
      patientRecordsRoute (revokeAccess s p d) (some u) p = (403, none) := by
  have h0 : (deleteOne (accessPairMatch p d) s.access).countP
      (accessPairMatch p d) = 0 :=
    countP_deleteOne_self _ _ (hinv p d)
  have hfind : (deleteOne (accessPairMatch p d) s.access).find?
      (fun a => a.patientId == p && a.doctorId == d && a.granted) = none := by
    refine find?_none_of_countP_zero _ (fun a ha => ?_) h0
    simp only [Bool.and_eq_true] at ha
    simp [accessPairMatch, ha.1.1, ha.1.2]
  have hchk : checkAccess (revokeAccess s p d) p d = false := by
    unfold checkAccess revokeAccess
    simp only [hfind, Option.isSome_none]
  refine ⟨hchk, fun u hrole hid => ?_⟩
  subst hid
  simp [patientRecordsRoute, hrole, hchk]

/-- Witness for C4: revoke the one grant of a concrete store. -/
theorem revoke_removes_visibility_witness :
    checkAccess (revokeAccess storeWithGrant "p1" "d1") "p1" "d1" = false ∧
    patientRecordsRoute (revokeAccess storeWithGrant "p1" "d1")
      (some doctorSess) "p1" = (403, none) := by
  have hinv : AccessInv storeWithGrant :=
    accessInv_grantAccess emptyStore sampleGrant accessInv_empty
  exact ⟨(revoke_removes_visibility storeWithGrant "p1" "d1" hinv).1,
         (revoke_removes_visibility storeWithGrant "p1" "d1" hinv).2
           doctorSess rfl rfl⟩

/-- C2 fails as stated: an authenticated patient posting a body that
violates the record insert schema to POST /api/records is answered with
500, not 400 — the ZodError lands in the handler's broad catch. -/
theorem records_schema_violation_answers_500 :
    parseInsertRecord patientSess.oid emptyRecordBody = none ∧
    recordsRoute emptyStore (some patientSess) emptyRecordBody =
      (emptyStore, 500) ∧
    (recordsRoute emptyStore (some patientSess) emptyRecordBody).2 ≠ 400 :=
  ⟨rfl, rfl, by decide⟩

/-- C2 amended: a body violating the entity insert schema never causes a
store write; POST /api/register answers 400, but POST /api/records and
POST /api/notes answer 500, and POST /api/grant-access parses only a
server-constructed value that cannot violate its schema. -/
theorem schema_violation_writes_nothing (s : Store) (u : SessionUser) :
    (∀ b, parseInsertUser b = none → registerRoute s b = (s, 400)) ∧
    (∀ b, u.role = "patient" → parseInsertRecord u.oid b = none →
      recordsRoute s (some u) b = (s, 500)) ∧
    (∀ b, u.role = "doctor" → parseInsertNote u.oid b = none →
      notesRoute s (some u) b = (s, 500)) ∧
    (∀ pid did g, parseInsertAccess pid did g ≠ none) := by
  refine ⟨fun b hb => ?_, fun b hr hb => ?_, fun b hr hb => ?_,
    fun pid did g => ?_⟩
  · simp [registerRoute, hb]
  · simp [recordsRoute, hr, hb]
  · simp [notesRoute, hr, hb]
  · simp [parseInsertAccess]

/-- Witness for the amended C2 at concrete invalid bodies. -/
theorem schema_violation_writes_nothing_witness :
    registerRoute emptyStore emptyRegisterBody = (emptyStore, 400) ∧
    recordsRoute emptyStore (some patientSess) emptyRecordBody =
      (emptyStore, 500) ∧
    notesRoute emptyStore (some doctorSess) emptyNoteBody =
      (emptyStore, 500) ∧
    parseInsertAccess "p1" "d1" true ≠ none :=
  ⟨(schema_violation_writes_nothing emptyStore patientSess).1
      emptyRegisterBody rfl,
   (schema_violation_writes_nothing emptyStore patientSess).2.1
      emptyRecordBody rfl rfl,
   (schema_violation_writes_nothing emptyStore doctorSess).2.2.1
      emptyNoteBody rfl rfl,
   (schema_violation_writes_nothing emptyStore doctorSess).2.2.2
      "p1" "d1" true⟩

/-- C3: when the store holds no Access document with granted = true for the
pair, an authenticated doctor's GET /api/records/:patientId answers 403
with no records, and a parsed note body targeting that patient is answered
403 by POST /api/notes with the store unchanged. -/
theorem no_grant_doctor_denied (s : Store) (u : SessionUser) (pid : String)
    (hrole : u.role = "doctor")
    (hacc : ∀ a ∈ s.access,
      ¬(a.patientId = pid ∧ a.doctorId = u.oid ∧ a.granted = true)) :
    patientRecordsRoute s (some u) pid = (403, none) ∧
    ∀ b nd, parseInsertNote u.oid b = some nd → nd.patientId = pid →
      notesRoute s (some u) b = (s, 403) := by
  have hchk : checkAccess s pid u.oid = false := by
    unfold checkAccess
    have hfind : s.access.find?
        (fun a => a.patientId == pid && a.doctorId == u.oid && a.granted) =
          none := by
      rw [List.find?_eq_none]
      intro a ha hq
      simp only [Bool.and_eq_true, beq_iff_eq] at hq
      exact hacc a ha ⟨hq.1.1, hq.1.2, hq.2⟩
    simp only [hfind, Option.isSome_none]
  constructor
  · simp [patientRecordsRoute, hrole, hchk]
  · intro b nd hparse hpid
    simp [notesRoute, hrole, hparse, hpid, hchk]

/-- Witness for C3 at the empty store. -/
theorem no_grant_doctor_denied_witness :
    patientRecordsRoute emptyStore (some doctorSess) "p1" = (403, none) ∧
    notesRoute emptyStore (some doctorSess) validNoteBody =
      (emptyStore, 403) :=
  ⟨(no_grant_doctor_denied emptyStore doctorSess "p1" rfl
      (by simp [emptyStore])).1,
   (no_grant_doctor_denied emptyStore doctorSess "p1" rfl
      (by simp [emptyStore])).2 validNoteBody
      { doctorId := "d1", patientId := "p1", consultationType := "checkup",
        content := "all good", diagnosis := none, nextAppointment := none }
      rfl rfl⟩

/-- C5: POST /api/login answers 401 and leaves the session as it was, both
when email, password and role match an unverified user and when the email,
password or role does not match. -/
theorem login_rejects_unverified_and_mismatch (s : Store)
    (sess : Option SessionUser) (email password role : String) :
    (∀ u, getUserByEmail s email = some u → u.password = password →
      u.role = role → u.verified = false →
      loginRoute s sess email password role = (sess, 401)) ∧
    ((getUserByEmail s email = none ∨
      ∃ u, getUserByEmail s email = some u ∧
        (u.password ≠ password ∨ u.role ≠ role)) →
      loginRoute s sess email password role = (sess, 401)) := by
  constructor
  · intro u hu hpw hrole hver
    simp [loginRoute, hu, hpw, hrole, hver]
  · rintro (hnone | ⟨u, hu, hbad⟩)
    · simp [loginRoute, hnone]
    · rcases hbad with hpw | hrole
      · simp [loginRoute, hu, hpw]
      · simp [loginRoute, hu, hrole]

/-- Witness for C5: the unverified user with correct credentials, and a
wrong-password attempt. -/
theorem login_rejects_unverified_and_mismatch_witness :
    loginRoute storeUnverified none "ann@x.com" "secret1" "patient" =
      (none, 401) ∧
    loginRoute storeUnverified none "ann@x.com" "wrong" "patient" =
      (none, 401) :=
  ⟨(login_rejects_unverified_and_mismatch storeUnverified none
      "ann@x.com" "secret1" "patient").1 unverifiedUser rfl rfl rfl rfl,
   (login_rejects_unverified_and_mismatch storeUnverified none
      "ann@x.com" "wrong" "patient").2
      (Or.inr ⟨unverifiedUser, rfl, Or.inl (by decide)⟩)⟩

/-- C6: a successful POST /api/register (status 201) appends exactly one
user whose verified flag equals (role == 'admin'), regardless of the
`verified` value carried by the request body. -/
theorem register_verified_iff_admin (s : Store) (b : RegisterBody)
    (h : (registerRoute s b).2 = 201) :
    ∃ u : UserDoc, (registerRoute s b).1.users = s.users ++ [u] ∧
      u.verified = (u.role == "admin") := by
  cases hp : parseInsertUser b with
  | none =>
    rw [show registerRoute s b = (s, 400) from by simp [registerRoute, hp]]
      at h
    simp at h
  | some iu =>
    cases hg : getUserByEmail s iu.email with
    | some u0 =>
      rw [show registerRoute s b = (s, 400) from by
        simp [registerRoute, hp, hg]] at h
      simp at h
    | none =>
      rw [show registerRoute s b =
          ((createUser s { iu with verified := iu.role == "admin" }).1, 201)
        from by simp [registerRoute, hp, hg]]
      exact ⟨_, rfl, rfl⟩

/-- Witness for C6: registering a patient who claims verified = true. -/
theorem register_verified_iff_admin_witness :
    ∃ u : UserDoc,
      (registerRoute emptyStore patientRegisterBody).1.users =
        emptyStore.users ++ [u] ∧ u.verified = (u.role == "admin") :=
  register_verified_iff_admin emptyStore patientRegisterBody (by decide)

/-- C7: a file with a MIME type outside the allowlist or larger than 10MB
never reaches the upload route handler and leaves the store unchanged, so
no record is persisted. -/
theorem upload_bad_file_rejected (s : Store) (sess : Option SessionUser)
    (f : UploadedFile) (d : Option String)
    (hbad : allowedTypes.contains f.mimetype = false ∨
      10 * 1024 * 1024 < f.size) :
    (uploadRoute s sess (some f) d).1 = s ∧
    ((uploadRoute s sess (some f) d).2).handlerRan = false := by
  have hm : multerAccepts f = false := by
    rcases hbad with hb | hb
    · simp only [multerAccepts, hb, Bool.false_and]
    · have hn : decide (f.size ≤ 10 * 1024 * 1024) = false :=
        decide_eq_false (Nat.not_le.mpr hb)
      simp only [multerAccepts, hn, Bool.and_false]
  unfold uploadRoute
  cases sess with
  | none => exact ⟨rfl, rfl⟩
  | some u =>
    by_cases hr : u.role = "patient"
    · simp [hr, hm, UploadResult.handlerRan]
    · simp [hr, UploadResult.handlerRan]

/-- Witness for C7: an executable upload attempt by a patient. -/
theorem upload_bad_file_rejected_witness :
    (uploadRoute emptyStore (some patientSess) (some badFile) none).1 =
      emptyStore ∧
    ((uploadRoute emptyStore (some patientSess)
      (some badFile) none).2).handlerRan = false :=
  upload_bad_file_rejected emptyStore (some patientSess) badFile none
    (Or.inl (by decide))

theorem parseInsertRecord_patientId {pid : String} {b : RecordBody}
    {r : InsertRecord} (h : parseInsertRecord pid b = some r) :
    r.patientId = pid := by
  unfold parseInsertRecord at h
  split at h
  · injection h with h
    subst h
    rfl
  · simp at h

/-- C8: every record persisted by a successful POST /api/records or POST
/api/upload carries the session user's id as its patientId, overriding any
patientId from the request body. -/
theorem record_owner_is_session_patient (s : Store) (u : SessionUser) :
    (∀ b : RecordBody, (recordsRoute s (some u) b).2 = 200 →
      ∃ r : RecordDoc,
        (recordsRoute s (some u) b).1.records = s.records ++ [r] ∧
        r.patientId = u.oid) ∧
    (∀ (f : UploadedFile) (d : Option String),
      (uploadRoute s (some u) (some f) d).2 = .handled 200 →
      ∃ r : RecordDoc,
        (uploadRoute s (some u) (some f) d).1.records = s.records ++ [r] ∧
        r.patientId = u.oid) := by
  constructor
  · intro b h200
    by_cases hrole : u.role = "patient"
    · cases hp : parseInsertRecord u.oid b with
      | none =>
        rw [show recordsRoute s (some u) b = (s, 500) from by
          simp [recordsRoute, hrole, hp]] at h200
        simp at h200
      | some r =>
        rw [show recordsRoute s (some u) b = ((createRecord s r).1, 200)
          from by simp [recordsRoute, hrole, hp]]
        exact ⟨_, rfl, parseInsertRecord_patientId hp⟩
    · rw [show recordsRoute s (some u) b = (s, 403) from by
        simp [recordsRoute, hrole]] at h200
      simp at h200
  · intro f d h200
    by_cases hrole : u.role = "patient"
    · by_cases hm : multerAccepts f
      · rw [show uploadRoute s (some u) (some f) d =
            ((createRecord s
              { patientId := u.oid, filename := f.originalname,
                filePath := f.path, description := d.getD "",
                fileType := f.mimetype, fileSize := (f.size : Int) }).1,
             .handled 200) from by simp [uploadRoute, hrole, hm]]
        exact ⟨_, rfl, rfl⟩
      · rw [show uploadRoute s (some u) (some f) d = (s, .multerRejected)
          from by simp [uploadRoute, hrole, hm]] at h200
        simp at h200
    · rw [show uploadRoute s (some u) (some f) d = (s, .forbidden) from by
        simp [uploadRoute, hrole]] at h200
      simp at h200

/-- Witness for C8: a valid body that lies about its patientId. -/
theorem record_owner_is_session_patient_witness :
    ∃ r : RecordDoc,
      (recordsRoute emptyStore (some patientSess)
        ⟨some "someone-else", some "scan.pdf", some "uploads/scan.pdf",
         some "", some "application/pdf", some 100⟩).1.records =
        emptyStore.records ++ [r] ∧
      r.patientId = patientSess.oid :=
  (record_owner_is_session_patient emptyStore patientSess).1
    ⟨some "someone-else", some "scan.pdf", some "uploads/scan.pdf",
     some "", some "application/pdf", some 100⟩ rfl

/-- C9: POST /api/grant-access from an authenticated patient answers 400
and leaves the store untouched when the supplied doctorEmail resolves to no
user, to a user who is not a doctor, or to an unverified doctor. -/
theorem grant_unknown_doctor_400 (s : Store) (u : SessionUser)
    (e : Option String) (hrole : u.role = "patient")
    (hbad : e.bind (getUserByEmail s) = none ∨
      ∃ doctor, e.bind (getUserByEmail s) = some doctor ∧
        (doctor.role ≠ "doctor" ∨ doctor.verified = false)) :
    grantAccessRoute s (some u) e = (s, 400) := by
  rcases hbad with hn | ⟨doctor, hd, hbad2⟩
  · simp [grantAccessRoute, hrole, hn]
  · rcases hbad2 with hr | hv
    · simp [grantAccessRoute, hrole, hd, hr]
    · simp [grantAccessRoute, hrole, hd, hv]

/-- Witness for C9: granting to an unverified doctor. -/
theorem grant_unknown_doctor_400_witness :
    grantAccessRoute storeUnverifiedDoctor (some patientSess)
      (some "eve@x.com") = (storeUnverifiedDoctor, 400) :=
  grant_unknown_doctor_400 storeUnverifiedDoctor patientSess
    (some "eve@x.com") rfl
    (Or.inr ⟨unverifiedDoctor, rfl, Or.inr rfl⟩)

end ETT
